import Mathlib

/-
  Shallow embedding of the rust-nes 6502 emulator core
  (src/main.rs, src/instruction.rs, src/utils.rs).

  Modelling conventions.
  Machine integers are modelled as Nat.  Rust fixed-width arithmetic is
  translated as follows:
  - plain binary addition and subtraction on u8, u16 and usize are the
    checked operations of the debug profile (the profile under which the
    repository's cargo test acceptance run executes, and the semantics the
    spec itself assumes in its section 9 notes): they return none on
    overflow or underflow;
  - the wrapping_add and wrapping_sub methods are modelled with an explicit
    modulus;
  - an as cast to u16 or u8 truncates with an explicit modulus, and an as
    cast from a negative i32 to usize wraps modulo 2 to the 64;
  - slice indexing into the 65536-byte memory is a bounds-checked partial
    read or write returning none when out of range;
  - the usize cycle counter is idealized as an unbounded Nat, since no
    claim concerns its astronomically unreachable overflow.
  Rust tuple fields are 0-indexed while Lean Prod fields are 1-indexed:
  Rust data.0 is Lean data.1 and Rust data.1 is Lean data.2.
-/

namespace RustNes

/-- Checked u8 addition: Rust plain addition on u8 under overflow checks. -/
def checked_add_u8 (a b : Nat) : Option Nat :=
  if a + b ≤ 255 then some (a + b) else none

/-- Checked u16 addition: Rust plain addition on u16 under overflow checks. -/
def checked_add_u16 (a b : Nat) : Option Nat :=
  if a + b ≤ 65535 then some (a + b) else none

/-- Checked subtraction (u8, u16 or usize): fails on underflow. -/
def checked_sub (a b : Nat) : Option Nat :=
  if b ≤ a then some (a - b) else none

/-- Rust wrapping_add on u8. -/
def wrapping_add_u8 (a b : Nat) : Nat := (a + b) % 256

/-- Rust wrapping_sub on u8. -/
def wrapping_sub_u8 (a b : Nat) : Nat := (a + (256 - b % 256)) % 256

/-- Rust wrapping_add on u16. -/
def wrapping_add_u16 (a b : Nat) : Nat := (a + b) % 65536

/-- Rust wrapping_sub on u16. -/
def wrapping_sub_u16 (a b : Nat) : Nat := (a + (65536 - b % 65536)) % 65536

/-- Rust cast as u16 of a wider value: truncation modulo 65536. -/
def as_u16 (n : Nat) : Nat := n % 65536

/-- Reinterpret a u8 as an i8 (the Rust as i8 cast), yielding an Int. -/
def i8_of_u8 (b : Nat) : Int := if b < 128 then (b : Int) else (b : Int) - 256

/-- Rust as usize cast of a (possibly negative) i32: two's-complement
wrap modulo 2 to the 64. -/
def usize_of_int (v : Int) : Nat := (v % (18446744073709551616 : Int)).toNat

/-- The 65536-byte memory, as a function from address to byte. -/
def Mem : Type := Nat → Nat

/-- Bounds-checked slice read: Rust memory indexing panics out of range. -/
def memRead (m : Mem) (i : Nat) : Option Nat :=
  if i < 65536 then some (m i) else none

/-- Bounds-checked slice write. -/
def memWrite (m : Mem) (i v : Nat) : Option Mem :=
  if i < 65536 then some (fun j => if j = i then v else m j) else none

/-- From src/utils.rs: little-endian word assembly.  The pair is
(little byte, big byte), matching the Rust tuple (bytes.0, bytes.1). -/
def to_address_from_bytes (bytes : Nat × Nat) : Nat :=
  (bytes.2 <<< 8) + bytes.1

/-- From src/utils.rs: both addresses are truncated as u16 and their high
bytes (page indices) compared. -/
def was_page_boundary_crossed (address indexed_address : Nat) : Bool :=
  ((address % 65536) &&& 0xFF00) != ((indexed_address % 65536) &&& 0xFF00)

/-- From src/utils.rs: the byte as i8 is negative, i.e. at least 0x80. -/
def is_negative (byte : Nat) : Bool := decide (128 ≤ byte)

/-- From src/utils.rs: the byte is zero. -/
def is_zero (byte : Nat) : Bool := decide (byte = 0)

/-- Modelled from the spec: to_bytes_from_address is imported by
src/main.rs from the utilities module but is absent from the provided
src/utils.rs.  Spec section 8 gives the round trip (w and 0xFF, w shr 8)
for the (lo, hi) pair, and section 4.4 says JSR pushes the high byte
first while the source pushes field .1 first, so the pair is (low, high),
the inverse of to_address_from_bytes. -/
def to_bytes_from_address (address : Nat) : Nat × Nat :=
  (address % 256, address / 256)

end RustNes

namespace RustNes

/-- From src/instruction.rs: the 56 opcode mnemonics. -/
inductive Opcode
  | ADC | AND | ASL | BCC | BCS | BEQ | BIT | BMI | BNE | BPL | BRK | BVC
  | BVS | CLC | CLD | CLI | CLV | CMP | CPX | CPY | DEC | DEX | DEY | EOR
  | INC | INX | INY | JMP | JSR | LDA | LDX | LDY | LSR | NOP | ORA | PHA
  | PHP | PLA | PLP | ROL | ROR | RTI | RTS | SBC | SEC | SED | SEI | STA
  | STX | STY | TAX | TAY | TSX | TXA | TXS | TYA
  deriving DecidableEq

/-- From src/instruction.rs: the 13 addressing modes. -/
inductive AddressingMode
  | Accumulator | Immediate | Implied | Relative | Absolute
  | AbsoluteIndexedX | AbsoluteIndexedY | ZeroPage | ZeroPageIndexedX
  | ZeroPageIndexedY | Indirect | IndexedIndirect | IndirectIndexed
  deriving DecidableEq

/-- From src/instruction.rs: the decoded instruction descriptor. -/
structure Instruction where
  opcode : Opcode
  addressing_mode : AddressingMode
  cycles : Nat
  data : Nat × Nat
  width : Nat
  opcode_byte : Nat
  deriving DecidableEq

/-- The match arms of Instruction::decode in src/instruction.rs, row for
row: each supported opcode byte maps to its
(opcode, addressing_mode, cycles, width) quadruple, exactly as the source
writes them; unlisted bytes hit the panicking default arm. -/
def decodeTable : Nat → Option (Opcode × AddressingMode × Nat × Nat)
  | 0x69 => some (.ADC, .Immediate, 2, 2)
  | 0x65 => some (.ADC, .ZeroPage, 3, 2)
  | 0x75 => some (.ADC, .ZeroPageIndexedX, 4, 2)
  | 0x6D => some (.ADC, .Absolute, 4, 3)
  | 0x7D => some (.ADC, .AbsoluteIndexedX, 4, 3)
  | 0x79 => some (.ADC, .AbsoluteIndexedY, 4, 3)
  | 0x61 => some (.ADC, .IndexedIndirect, 6, 2)
  | 0x71 => some (.ADC, .IndirectIndexed, 5, 2)
  | 0x29 => some (.AND, .Immediate, 2, 2)
  | 0x25 => some (.AND, .ZeroPage, 3, 2)
  | 0x35 => some (.AND, .ZeroPageIndexedX, 4, 2)
  | 0x2D => some (.AND, .Absolute, 4, 3)
  | 0x3D => some (.AND, .AbsoluteIndexedX, 4, 3)
  | 0x39 => some (.AND, .AbsoluteIndexedY, 4, 3)
  | 0x21 => some (.AND, .IndexedIndirect, 6, 2)
  | 0x31 => some (.AND, .IndirectIndexed, 5, 2)
  | 0x0A => some (.ASL, .Accumulator, 2, 1)
  | 0x06 => some (.ASL, .ZeroPage, 5, 2)
  | 0x16 => some (.ASL, .ZeroPageIndexedX, 6, 2)
  | 0x0E => some (.ASL, .Absolute, 6, 3)
  | 0x1E => some (.ASL, .AbsoluteIndexedX, 7, 3)
  | 0x90 => some (.BCC, .Relative, 2, 2)
  | 0xB0 => some (.BCS, .Relative, 2, 2)
  | 0xF0 => some (.BEQ, .Relative, 2, 2)
  | 0x24 => some (.BIT, .ZeroPage, 3, 2)
  | 0x2C => some (.BIT, .Absolute, 4, 3)
  | 0x30 => some (.BMI, .Relative, 2, 2)
  | 0xD0 => some (.BNE, .Relative, 2, 2)
  | 0x10 => some (.BPL, .Relative, 2, 2)
  | 0x00 => some (.BRK, .Implied, 7, 1)
  | 0x50 => some (.BVC, .Relative, 2, 2)
  | 0x70 => some (.BVS, .Relative, 2, 2)
  | 0x18 => some (.CLC, .Implied, 2, 1)
  | 0xD8 => some (.CLD, .Implied, 2, 1)
  | 0x58 => some (.CLI, .Implied, 2, 1)
  | 0xB8 => some (.CLV, .Implied, 2, 1)
  | 0xC9 => some (.CMP, .Immediate, 2, 2)
  | 0xC5 => some (.CMP, .ZeroPage, 3, 2)
  | 0xD5 => some (.CMP, .ZeroPageIndexedX, 4, 2)
  | 0xCD => some (.CMP, .Absolute, 4, 3)
  | 0xDD => some (.CMP, .AbsoluteIndexedX, 4, 3)
  | 0xD9 => some (.CMP, .AbsoluteIndexedY, 4, 3)
  | 0xC1 => some (.CMP, .IndexedIndirect, 6, 2)
  | 0xD1 => some (.CMP, .IndirectIndexed, 5, 2)
  | 0xE0 => some (.CPX, .Immediate, 2, 2)
  | 0xE4 => some (.CPX, .ZeroPage, 3, 2)
  | 0xEC => some (.CPX, .Absolute, 4, 2)
  | 0xC0 => some (.CPY, .Immediate, 2, 2)
  | 0xC4 => some (.CPY, .ZeroPage, 3, 2)
  | 0xCC => some (.CPY, .Absolute, 4, 2)
  | 0xC6 => some (.DEC, .ZeroPage, 5, 2)
  | 0xD6 => some (.DEC, .ZeroPageIndexedX, 6, 2)
  | 0xCE => some (.DEC, .Absolute, 6, 3)
  | 0xDE => some (.DEC, .AbsoluteIndexedX, 7, 3)
  | 0xCA => some (.DEX, .Implied, 2, 1)
  | 0x88 => some (.DEY, .Implied, 2, 1)
  | 0x49 => some (.EOR, .Immediate, 2, 2)
  | 0x45 => some (.EOR, .ZeroPage, 3, 2)
  | 0x55 => some (.EOR, .ZeroPageIndexedX, 4, 2)
  | 0x4D => some (.EOR, .Absolute, 4, 3)
  | 0x5D => some (.EOR, .AbsoluteIndexedX, 4, 3)
  | 0x59 => some (.EOR, .AbsoluteIndexedY, 4, 3)
  | 0x41 => some (.EOR, .IndexedIndirect, 6, 2)
  | 0x51 => some (.EOR, .IndirectIndexed, 5, 2)
  | 0xE6 => some (.INC, .ZeroPage, 5, 2)
  | 0xF6 => some (.INC, .ZeroPageIndexedX, 6, 2)
  | 0xEE => some (.INC, .Absolute, 6, 3)
  | 0xFE => some (.INC, .AbsoluteIndexedX, 7, 3)
  | 0xE8 => some (.INX, .Implied, 2, 1)
  | 0xC8 => some (.INY, .Implied, 2, 1)
  | 0x4C => some (.JMP, .Absolute, 3, 3)
  | 0x6C => some (.JMP, .Indirect, 5, 3)
  | 0x20 => some (.JSR, .Absolute, 6, 3)
  | 0xA9 => some (.LDA, .Immediate, 2, 2)
  | 0xA5 => some (.LDA, .ZeroPage, 3, 2)
  | 0xB5 => some (.LDA, .ZeroPageIndexedX, 4, 2)
  | 0xAD => some (.LDA, .Absolute, 4, 3)
  | 0xBD => some (.LDA, .AbsoluteIndexedX, 4, 3)
  | 0xB9 => some (.LDA, .AbsoluteIndexedY, 4, 3)
  | 0xA1 => some (.LDA, .IndexedIndirect, 6, 2)
  | 0xB1 => some (.LDA, .IndirectIndexed, 5, 2)
  | 0xA2 => some (.LDX, .Immediate, 2, 2)
  | 0xA6 => some (.LDX, .ZeroPage, 3, 2)
  | 0xB6 => some (.LDX, .ZeroPageIndexedY, 4, 2)
  | 0xAE => some (.LDX, .Absolute, 4, 3)
  | 0xBE => some (.LDX, .AbsoluteIndexedY, 4, 3)
  | 0xA0 => some (.LDY, .Immediate, 2, 2)
  | 0xA4 => some (.LDY, .ZeroPage, 3, 2)
  | 0xB4 => some (.LDY, .ZeroPageIndexedX, 4, 2)
  | 0xAC => some (.LDY, .Absolute, 4, 3)
  | 0xBC => some (.LDX, .AbsoluteIndexedY, 4, 3)
  | 0x4A => some (.LSR, .Accumulator, 2, 1)
  | 0x46 => some (.LSR, .ZeroPage, 5, 2)
  | 0x56 => some (.LSR, .ZeroPageIndexedX, 6, 2)
  | 0x4E => some (.LSR, .Absolute, 6, 3)
  | 0x5E => some (.LSR, .AbsoluteIndexedX, 7, 3)
  | 0xEA => some (.NOP, .Implied, 2, 1)
  | 0x09 => some (.ORA, .Immediate, 2, 2)
  | 0x05 => some (.ORA, .ZeroPage, 3, 2)
  | 0x15 => some (.ORA, .ZeroPageIndexedX, 4, 2)
  | 0x0D => some (.ORA, .Absolute, 4, 3)
  | 0x1D => some (.ORA, .AbsoluteIndexedX, 4, 3)
  | 0x19 => some (.ORA, .AbsoluteIndexedY, 4, 3)
  | 0x01 => some (.ORA, .IndexedIndirect, 6, 2)
  | 0x11 => some (.ORA, .IndirectIndexed, 5, 2)
  | 0x48 => some (.PHA, .Implied, 3, 1)
  | 0x08 => some (.PHP, .Implied, 3, 1)
  | 0x68 => some (.PLA, .Implied, 4, 1)
  | 0x28 => some (.PLP, .Implied, 4, 1)
  | 0x2A => some (.ROL, .Accumulator, 2, 1)
  | 0x26 => some (.ROL, .ZeroPage, 5, 2)
  | 0x36 => some (.ROL, .ZeroPageIndexedX, 6, 2)
  | 0x2E => some (.ROL, .Absolute, 6, 3)
  | 0x3E => some (.ROL, .AbsoluteIndexedX, 7, 3)
  | 0x6A => some (.ROR, .Accumulator, 2, 1)
  | 0x66 => some (.ROR, .ZeroPage, 5, 2)
  | 0x76 => some (.ROR, .ZeroPageIndexedX, 6, 2)
  | 0x6E => some (.ROR, .Absolute, 6, 3)
  | 0x7E => some (.ROR, .AbsoluteIndexedX, 7, 3)
  | 0x40 => some (.RTI, .Implied, 6, 1)
  | 0x60 => some (.RTS, .Implied, 6, 1)
  | 0xE9 => some (.SBC, .Immediate, 2, 2)
  | 0xE5 => some (.SBC, .ZeroPage, 3, 2)
  | 0xF5 => some (.SBC, .ZeroPageIndexedX, 3, 2)
  | 0xED => some (.SBC, .Absolute, 4, 2)
  | 0xFD => some (.SBC, .AbsoluteIndexedX, 4, 3)
  | 0xF9 => some (.SBC, .AbsoluteIndexedY, 4, 3)
  | 0xE1 => some (.SBC, .IndexedIndirect, 6, 2)
  | 0xF1 => some (.SBC, .IndirectIndexed, 5, 2)
  | 0x38 => some (.SEC, .Implied, 2, 1)
  | 0xF8 => some (.SED, .Implied, 2, 1)
  | 0x78 => some (.SEI, .Implied, 2, 1)
  | 0x85 => some (.STA, .ZeroPage, 3, 2)
  | 0x95 => some (.STA, .ZeroPageIndexedX, 4, 2)
  | 0x8D => some (.STA, .Absolute, 4, 3)
  | 0x9D => some (.STA, .AbsoluteIndexedX, 5, 3)
  | 0x99 => some (.STA, .AbsoluteIndexedY, 5, 3)
  | 0x81 => some (.STA, .IndexedIndirect, 6, 2)
  | 0x91 => some (.STA, .IndirectIndexed, 6, 2)
  | 0x86 => some (.STX, .ZeroPage, 3, 2)
  | 0x96 => some (.STX, .ZeroPageIndexedY, 4, 2)
  | 0x8E => some (.STX, .Absolute, 4, 3)
  | 0x84 => some (.STY, .ZeroPage, 3, 2)
  | 0x94 => some (.STY, .ZeroPageIndexedX, 4, 2)
  | 0x8C => some (.STY, .Absolute, 4, 3)
  | 0xAA => some (.TAX, .Implied, 2, 1)
  | 0xA8 => some (.TAY, .Implied, 2, 1)
  | 0xBA => some (.TSX, .Implied, 2, 1)
  | 0x8A => some (.TXA, .Implied, 2, 1)
  | 0x9A => some (.TXS, .Implied, 2, 1)
  | 0x98 => some (.TYA, .Implied, 2, 1)
  | _ => none

/-- From src/instruction.rs, Instruction::decode: reads the opcode byte at
the program counter and, unconditionally, the two following bytes, then
builds the descriptor from the table row.  The three slice reads are
bounds-checked; the default match arm panics, modelled as none. -/
def decode (memory : Mem) (memory_position : Nat) : Option Instruction := do
  let index := memory_position
  let opcode_byte ← memRead memory index
  let d1 ← memRead memory (index + 1)
  let d2 ← memRead memory (index + 2)
  match decodeTable opcode_byte with
  | some (op, am, cyc, w) =>
      some { opcode := op, addressing_mode := am, cycles := cyc,
             data := (d1, d2), width := w, opcode_byte := opcode_byte }
  | none => none

end RustNes

namespace RustNes

/-- From src/main.rs: the seven status flags. -/
structure CPUFlags where
  carry : Bool
  zero : Bool
  interrupt_disable : Bool
  decimal_mode : Bool
  break_command : Bool
  overflow : Bool
  negative : Bool
  deriving DecidableEq

/-- CPUFlags::new, all flags clear. -/
def CPUFlags.new : CPUFlags :=
  ⟨false, false, false, false, false, false, false⟩

/-- CPUFlags::set_from_byte: unpack the packed status byte, bit 5 ignored. -/
def CPUFlags.set_from_byte (_flags : CPUFlags) (byte : Nat) : CPUFlags :=
  { carry := decide ((byte &&& 0b00000001) = 1)
    zero := decide (((byte &&& 0b00000010) >>> 1) = 1)
    interrupt_disable := decide (((byte &&& 0b00000100) >>> 2) = 1)
    decimal_mode := decide (((byte &&& 0b00001000) >>> 3) = 1)
    break_command := decide (((byte &&& 0b00010000) >>> 4) = 1)
    overflow := decide (((byte &&& 0b01000000) >>> 6) = 1)
    negative := decide (((byte &&& 0b10000000) >>> 7) = 1) }

/-- CPUFlags::from_byte. -/
def CPUFlags.from_byte (byte : Nat) : CPUFlags :=
  CPUFlags.new.set_from_byte byte

/-- CPUFlags::as_byte: pack the flags, bit 5 always 1. -/
def CPUFlags.as_byte (f : CPUFlags) : Nat :=
  let byte := f.negative.toNat
  let byte := (byte <<< 1) ||| f.overflow.toNat
  let byte := (byte <<< 1) ||| 1
  let byte := (byte <<< 1) ||| f.break_command.toNat
  let byte := (byte <<< 1) ||| f.decimal_mode.toNat
  let byte := (byte <<< 1) ||| f.interrupt_disable.toNat
  let byte := (byte <<< 1) ||| f.zero.toNat
  (byte <<< 1) ||| f.carry.toNat

/-- From src/main.rs: the CPU state.  Registers x, y, a and sp are u8
(invariantly below 256), pc is u16 (below 65536), cycles is the usize
cycle counter. -/
structure CPU6502 where
  x : Nat
  y : Nat
  a : Nat
  pc : Nat
  sp : Nat
  cycles : Nat
  flags : CPUFlags
  memory : Mem

/-- CPU6502::push_on_stack: write the byte at STACK_PAGE + SP, then
decrement SP (checked u8 subtraction). -/
def push_on_stack (cpu : CPU6502) (byte : Nat) : Option CPU6502 := do
  let address := 0x0100 + cpu.sp
  let memory ← memWrite cpu.memory address byte
  let sp ← checked_sub cpu.sp 1
  some { cpu with memory := memory, sp := sp }

/-- CPU6502::pop_from_stack: increment SP (checked u8 addition), then
read the byte at STACK_PAGE + SP. -/
def pop_from_stack (cpu : CPU6502) : Option (CPU6502 × Nat) := do
  let sp ← checked_add_u8 cpu.sp 1
  let address := 0x0100 + sp
  let byte ← memRead cpu.memory address
  some ({ cpu with sp := sp }, byte)

/-- CPU6502::set_flags: zero and negative from the given byte. -/
def set_flags (cpu : CPU6502) (byte : Nat) : CPU6502 :=
  { cpu with flags :=
      { cpu.flags with zero := is_zero byte, negative := is_negative byte } }

/-- CPU6502::compare_and_set_flags. -/
def compare_and_set_flags (cpu : CPU6502) (register_byte memory_byte : Nat) :
    CPU6502 :=
  let result := wrapping_sub_u8 register_byte memory_byte
  let cpu := set_flags cpu result
  { cpu with flags :=
      { cpu.flags with carry := !(decide (register_byte < memory_byte)) } }

/-- CPU6502::get_address_operand, with the quirks of the source kept: the
AbsoluteIndexedX and AbsoluteIndexedY arms return the unindexed base
address, the AbsoluteIndexedY arm indexes with register X, and the
ZeroPageIndexed arms use checked (non-wrapping) u8 addition. -/
def get_address_operand (cpu : CPU6502) (instruction_data : Nat × Nat)
    (addressing_mode : AddressingMode) : Option (Nat × Bool) :=
  match addressing_mode with
  | .Absolute =>
      let address := to_address_from_bytes instruction_data
      some (address, false)
  | .AbsoluteIndexedX =>
      let address := to_address_from_bytes instruction_data
      let indexed_address := address + cpu.x
      some (address, was_page_boundary_crossed address indexed_address)
  | .AbsoluteIndexedY =>
      let address := to_address_from_bytes instruction_data
      let indexed_address := address + cpu.x
      some (address, was_page_boundary_crossed address indexed_address)
  | .ZeroPage =>
      some (instruction_data.1, false)
  | .ZeroPageIndexedX => do
      let address ← checked_add_u8 instruction_data.1 cpu.x
      some (address, false)
  | .ZeroPageIndexedY => do
      let address ← checked_add_u8 instruction_data.1 cpu.y
      some (address, false)
  | .Indirect => do
      let indirect_address := to_address_from_bytes instruction_data
      let lo ← memRead cpu.memory indirect_address
      let hi ← memRead cpu.memory (indirect_address + 1)
      some (to_address_from_bytes (lo, hi), false)
  | .IndexedIndirect => do
      let indirect_address := wrapping_add_u8 instruction_data.1 cpu.x
      let lo ← memRead cpu.memory indirect_address
      let hi ← memRead cpu.memory (wrapping_add_u8 indirect_address 1)
      some (to_address_from_bytes (lo, hi), false)
  | .IndirectIndexed => do
      let lo ← memRead cpu.memory instruction_data.1
      let hi ← memRead cpu.memory (wrapping_add_u8 instruction_data.1 1)
      let address := as_u16 (to_address_from_bytes (lo, hi))
      let indexed_address := wrapping_add_u16 address cpu.y
      some (indexed_address, was_page_boundary_crossed address indexed_address)
  | .Relative => do
      let offset := i8_of_u8 instruction_data.1
      let pc ← checked_add_u16 cpu.pc 2
      let address := usize_of_int ((pc : Int) + offset)
      some (address, was_page_boundary_crossed pc address)
  | _ => none

/-- CPU6502::get_value_operand. -/
def get_value_operand (cpu : CPU6502) (instruction_data : Nat × Nat)
    (addressing_mode : AddressingMode) : Option (Nat × Bool) :=
  match addressing_mode with
  | .Immediate => some (instruction_data.1, false)
  | .Accumulator => some (cpu.a, false)
  | .Implied => none
  | _ => do
      let (address, page_boundary_crossed) ←
        get_address_operand cpu instruction_data addressing_mode
      let byte ← memRead cpu.memory address
      some (byte, page_boundary_crossed)

/-- CPU6502::branch_on_condition: when taken, pre-decrement the target by
the width (checked usize subtraction), truncate as u16, and charge one
cycle plus one more on a page crossing. -/
def branch_on_condition (cpu : CPU6502) (condition : Bool)
    (instruction : Instruction) : Option CPU6502 :=
  if condition then do
    let (branch_address, page_boundary_crossed) ←
      get_address_operand cpu instruction.data instruction.addressing_mode
    let diff ← checked_sub branch_address instruction.width
    let cpu := { cpu with pc := as_u16 diff, cycles := cpu.cycles + 1 }
    some (if page_boundary_crossed
          then { cpu with cycles := cpu.cycles + 1 } else cpu)
  else some cpu

/-- CPU6502::add_extra_cycles. -/
def add_extra_cycles (cpu : CPU6502) (addressing_mode : AddressingMode)
    (page_boundary_crossed : Bool) : CPU6502 :=
  match addressing_mode with
  | .AbsoluteIndexedX | .AbsoluteIndexedY | .IndirectIndexed =>
      if page_boundary_crossed then { cpu with cycles := cpu.cycles + 1 }
      else cpu
  | _ => cpu

/-- CPU6502::add_with_carry: wrapping sum of A, operand and carry-in; the
carry flag is set from self.a greater than result (with the pre-update
accumulator), the overflow flag from the sign-bit formula. -/
def add_with_carry (cpu : CPU6502) (operand : Nat) : CPU6502 :=
  let result :=
    wrapping_add_u8 (wrapping_add_u8 cpu.a operand) (cond cpu.flags.carry 1 0)
  let cpu1 := set_flags cpu result
  let cpu2 := { cpu1 with flags :=
    { cpu1.flags with carry := decide (result < cpu.a) } }
  let overflow :=
    decide ((((cpu.a ^^^ operand) ^^^ 255) &&& 0x80 &&& (operand ^^^ result))
      = 0x80)
  let cpu3 := { cpu2 with
    flags := { cpu2.flags with overflow := overflow }, a := result }
  set_flags cpu3 cpu3.a

/-- CPU6502::execute_instruction: the per-opcode semantics, followed by
the unified post-increment of the program counter by the instruction
width (checked u16 addition) and the base cycle charge.  The default
match arm of the source panics on BRK. -/
def execute_instruction (cpu : CPU6502) (instruction : Instruction) :
    Option CPU6502 := do
  let addressing_mode := instruction.addressing_mode
  let instruction_data := instruction.data
  let cpu ← match instruction.opcode with
    | .ADC => do
        let (operand, pbc) ← get_value_operand cpu instruction_data addressing_mode
        let cpu := add_with_carry cpu operand
        some (add_extra_cycles cpu addressing_mode pbc)
    | .AND => do
        let (operand, pbc) ← get_value_operand cpu instruction_data addressing_mode
        let cpu := { cpu with a := cpu.a &&& operand }
        let cpu := set_flags cpu cpu.a
        some (add_extra_cycles cpu addressing_mode pbc)
    | .ASL =>
        if addressing_mode ≠ .Accumulator then do
          let (address, _) ← get_address_operand cpu instruction_data addressing_mode
          let byte ← memRead cpu.memory address
          let cpu := { cpu with flags :=
            { cpu.flags with carry := decide ((byte &&& 0b10000000) = 0b10000000) } }
          let newByte := (byte <<< 1) % 256
          let memory ← memWrite cpu.memory address newByte
          let cpu := { cpu with memory := memory }
          some (set_flags cpu newByte)
        else do
          let (operand, _) ← get_value_operand cpu instruction_data addressing_mode
          let cpu := { cpu with flags :=
            { cpu.flags with carry := decide ((operand &&& 0b10000000) = 0b10000000) } }
          let cpu := { cpu with a := (operand <<< 1) % 256 }
          some (set_flags cpu cpu.a)
    | .BCC => branch_on_condition cpu (!cpu.flags.carry) instruction
    | .BCS => branch_on_condition cpu cpu.flags.carry instruction
    | .BEQ => branch_on_condition cpu cpu.flags.zero instruction
    | .BIT => do
        let (byte, _) ← get_value_operand cpu instruction_data addressing_mode
        some { cpu with flags := { cpu.flags with
          negative := decide (((byte &&& 0b10000000) >>> 7) = 1),
          overflow := decide (((byte &&& 0b01000000) >>> 6) = 1),
          zero := decide ((cpu.a &&& byte) = 0) } }
    | .BMI => branch_on_condition cpu cpu.flags.negative instruction
    | .BNE => branch_on_condition cpu (!cpu.flags.zero) instruction
    | .BPL => branch_on_condition cpu (!cpu.flags.negative) instruction
    | .BVC => branch_on_condition cpu (!cpu.flags.overflow) instruction
    | .BVS => branch_on_condition cpu cpu.flags.overflow instruction
    | .CLC => some { cpu with flags := { cpu.flags with carry := false } }
    | .CLD => some { cpu with flags := { cpu.flags with decimal_mode := false } }
    | .CLI => some { cpu with flags := { cpu.flags with interrupt_disable := false } }
    | .CLV => some { cpu with flags := { cpu.flags with overflow := false } }
    | .CMP => do
        let (operand, pbc) ← get_value_operand cpu instruction_data addressing_mode
        let cpu := compare_and_set_flags cpu cpu.a operand
        some (add_extra_cycles cpu addressing_mode pbc)
    | .CPX => do
        let (operand, _) ← get_value_operand cpu instruction_data addressing_mode
        some (compare_and_set_flags cpu cpu.x operand)
    | .CPY => do
        let (operand, _) ← get_value_operand cpu instruction_data addressing_mode
        some (compare_and_set_flags cpu cpu.y operand)
    | .DEC => do
        let (address, _) ← get_address_operand cpu instruction_data addressing_mode
        let byte ← memRead cpu.memory address
        let newByte := wrapping_sub_u8 byte 1
        let memory ← memWrite cpu.memory address newByte
        let cpu := { cpu with memory := memory }
        some (set_flags cpu newByte)
    | .DEX =>
        let cpu := { cpu with x := wrapping_sub_u8 cpu.x 1 }
        some (set_flags cpu cpu.x)
    | .DEY =>
        let cpu := { cpu with y := wrapping_sub_u8 cpu.y 1 }
        some (set_flags cpu cpu.y)
    | .EOR => do
        let (operand, pbc) ← get_value_operand cpu instruction_data addressing_mode
        let cpu := { cpu with a := cpu.a ^^^ operand }
        let cpu := set_flags cpu cpu.a
        some (add_extra_cycles cpu addressing_mode pbc)
    | .INC => do
        let (address, _) ← get_address_operand cpu instruction_data addressing_mode
        let byte ← memRead cpu.memory address
        let newByte := wrapping_add_u8 byte 1
        let memory ← memWrite cpu.memory address newByte
        let cpu := { cpu with memory := memory }
        some (set_flags cpu newByte)
    | .INX =>
        let cpu := { cpu with x := wrapping_add_u8 cpu.x 1 }
        some (set_flags cpu cpu.x)
    | .INY =>
        let cpu := { cpu with y := wrapping_add_u8 cpu.y 1 }
        some (set_flags cpu cpu.y)
    | .JMP => do
        let (new_address, _) ← get_address_operand cpu instruction_data addressing_mode
        let diff ← checked_sub new_address instruction.width
        some { cpu with pc := as_u16 diff }
    | .JSR => do
        let pcv ← checked_add_u16 cpu.pc 2
        let return_address_bytes := to_bytes_from_address pcv
        let cpu ← push_on_stack cpu return_address_bytes.2
        let cpu ← push_on_stack cpu return_address_bytes.1
        let (new_address, _) ← get_address_operand cpu instruction_data addressing_mode
        let diff ← checked_sub new_address instruction.width
        some { cpu with pc := as_u16 diff }
    | .LDA => do
        let (byte, pbc) ← get_value_operand cpu instruction_data addressing_mode
        let cpu := { cpu with a := byte }
        let cpu := set_flags cpu cpu.a
        some (add_extra_cycles cpu addressing_mode pbc)
    | .LDX => do
        let (byte, pbc) ← get_value_operand cpu instruction_data addressing_mode
        let cpu := set_flags cpu byte
        let cpu := { cpu with x := byte }
        some (add_extra_cycles cpu addressing_mode pbc)
    | .LDY => do
        let (byte, pbc) ← get_value_operand cpu instruction_data addressing_mode
        let cpu := set_flags cpu byte
        let cpu := { cpu with y := byte }
        some (add_extra_cycles cpu addressing_mode pbc)
    | .LSR =>
        if addressing_mode ≠ .Accumulator then do
          let (address, _) ← get_address_operand cpu instruction_data addressing_mode
          let byte ← memRead cpu.memory address
          let cpu := { cpu with flags :=
            { cpu.flags with carry := decide ((byte &&& 0x01) = 1) } }
          let newByte := byte >>> 1
          let memory ← memWrite cpu.memory address newByte
          let cpu := { cpu with memory := memory }
          some (set_flags cpu newByte)
        else do
          let (byte, _) ← get_value_operand cpu instruction_data addressing_mode
          let cpu := { cpu with flags :=
            { cpu.flags with carry := decide ((byte &&& 0x01) = 1) } }
          let cpu := { cpu with a := byte >>> 1 }
          some (set_flags cpu cpu.a)
    | .NOP => some cpu
    | .ORA => do
        let (operand, pbc) ← get_value_operand cpu instruction_data addressing_mode
        let cpu := { cpu with a := cpu.a ||| operand }
        let cpu := set_flags cpu cpu.a
        some (add_extra_cycles cpu addressing_mode pbc)
    | .PHA => push_on_stack cpu cpu.a
    | .PHP => push_on_stack cpu (cpu.flags.as_byte ||| 0b00010000)
    | .PLA => do
        let (cpu, byte) ← pop_from_stack cpu
        let cpu := { cpu with a := byte }
        some (set_flags cpu cpu.a)
    | .PLP => do
        let (cpu, new_flags) ← pop_from_stack cpu
        let f := cpu.flags.set_from_byte new_flags
        some { cpu with flags := { f with break_command := false } }
    | .ROL =>
        let carry := cond cpu.flags.carry 1 0
        if addressing_mode ≠ .Accumulator then do
          let (address, _) ← get_address_operand cpu instruction_data addressing_mode
          let byte ← memRead cpu.memory address
          let cpu := { cpu with flags :=
            { cpu.flags with carry := decide ((byte &&& 0b10000000) = 0b10000000) } }
          let newByte := (byte <<< 1) % 256 + carry
          let memory ← memWrite cpu.memory address newByte
          let cpu := { cpu with memory := memory }
          some (set_flags cpu newByte)
        else do
          let (operand, _) ← get_value_operand cpu instruction_data addressing_mode
          let cpu := { cpu with flags :=
            { cpu.flags with carry := decide ((operand &&& 0b10000000) = 0b10000000) } }
          let cpu := { cpu with a := (operand <<< 1) % 256 + carry }
          some (set_flags cpu cpu.a)
    | .ROR =>
        let carry := cond cpu.flags.carry 1 0
        if addressing_mode ≠ .Accumulator then do
          let (address, _) ← get_address_operand cpu instruction_data addressing_mode
          let byte ← memRead cpu.memory address
          let cpu := { cpu with flags :=
            { cpu.flags with carry := decide ((byte &&& 0x01) = 1) } }
          let newByte := (byte >>> 1) + (carry <<< 7)
          let memory ← memWrite cpu.memory address newByte
          let cpu := { cpu with memory := memory }
          some (set_flags cpu newByte)
        else do
          let (operand, _) ← get_value_operand cpu instruction_data addressing_mode
          let cpu := { cpu with flags :=
            { cpu.flags with carry := decide ((operand &&& 0x01) = 1) } }
          let cpu := { cpu with a := (operand >>> 1) + (carry <<< 7) }
          some (set_flags cpu cpu.a)
    | .RTI => do
        let (cpu, new_flags) ← pop_from_stack cpu
        let f := cpu.flags.set_from_byte new_flags
        let cpu := { cpu with flags := { f with break_command := false } }
        let (cpu, lo_byte) ← pop_from_stack cpu
        let (cpu, hi_byte) ← pop_from_stack cpu
        let address := as_u16 (to_address_from_bytes (lo_byte, hi_byte))
        some { cpu with pc := wrapping_sub_u16 address 1 }
    | .RTS => do
        let (cpu, lo_byte) ← pop_from_stack cpu
        let (cpu, hi_byte) ← pop_from_stack cpu
        let address := as_u16 (to_address_from_bytes (lo_byte, hi_byte))
        some { cpu with pc := address }
    | .SBC => do
        let (operand, pbc) ← get_value_operand cpu instruction_data addressing_mode
        let cpu := add_with_carry cpu (operand ^^^ 255)
        some (add_extra_cycles cpu addressing_mode pbc)
    | .SEC => some { cpu with flags := { cpu.flags with carry := true } }
    | .SED => some { cpu with flags := { cpu.flags with decimal_mode := true } }
    | .SEI => some { cpu with flags := { cpu.flags with interrupt_disable := true } }
    | .STA => do
        let (address, _) ← get_address_operand cpu instruction_data addressing_mode
        let memory ← memWrite cpu.memory address cpu.a
        some { cpu with memory := memory }
    | .STX => do
        let (address, _) ← get_address_operand cpu instruction_data addressing_mode
        let memory ← memWrite cpu.memory address cpu.x
        some { cpu with memory := memory }
    | .STY => do
        let (address, _) ← get_address_operand cpu instruction_data addressing_mode
        let memory ← memWrite cpu.memory address cpu.y
        some { cpu with memory := memory }
    | .TAX =>
        let cpu := { cpu with x := cpu.a }
        some (set_flags cpu cpu.x)
    | .TAY =>
        let cpu := { cpu with y := cpu.a }
        some (set_flags cpu cpu.y)
    | .TSX =>
        let cpu := { cpu with x := cpu.sp }
        some (set_flags cpu cpu.x)
    | .TXA =>
        let cpu := { cpu with a := cpu.x }
        some (set_flags cpu cpu.a)
    | .TXS => some { cpu with sp := cpu.x }
    | .TYA =>
        let cpu := { cpu with a := cpu.y }
        some (set_flags cpu cpu.a)
    | .BRK => none
  let pc ← checked_add_u16 cpu.pc instruction.width
  some { cpu with pc := pc, cycles := cpu.cycles + instruction.cycles }

/-- CPU6502::load_and_execute: one full step, decode then execute. -/
def load_and_execute (cpu : CPU6502) : Option CPU6502 := do
  let instruction ← decode cpu.memory cpu.pc
  execute_instruction cpu instruction

end RustNes

namespace RustNes

/-- A decode at a program counter at most 0xFFFD performs all three memory
reads in bounds and reduces to a lookup in the opcode table. -/
theorem decode_eq_of_le (m : Mem) (pc : Nat) (h : pc ≤ 0xFFFD) :
    decode m pc =
      match decodeTable (m pc) with
      | some (op, am, cyc, w) =>
          some { opcode := op, addressing_mode := am, cycles := cyc,
                 data := (m (pc + 1), m (pc + 2)), width := w,
                 opcode_byte := m pc }
      | none => none := by
  have h0 : pc < 65536 := by omega
  have h1 : pc + 1 < 65536 := by omega
  have h2 : pc + 2 < 65536 := by omega
  unfold decode memRead
  simp [h0, h1, h2]

/-- The all-zero memory. -/
def memZero : Mem := fun _ => 0

/-- The nestest reset state over zeroed memory (spec section 6). -/
def resetCPU : CPU6502 :=
  { x := 0, y := 0, a := 0, pc := 0xC000, sp := 0xFD, cycles := 7,
    flags := CPUFlags.from_byte 0x24, memory := memZero }

end RustNes

namespace RustNes

/-- A CPU at the reset state with X set to 1. -/
def c1CpuX : CPU6502 := { resetCPU with x := 1 }

/-- A CPU at the reset state with Y set to 5 and X zero. -/
def c1CpuY : CPU6502 := { resetCPU with y := 5 }

/-- A CPU at the reset state with X set to 0x34 and Y zero. -/
def c1CpuXY : CPU6502 := { resetCPU with x := 0x34 }

/-- Claim C1: address_of in AbsoluteIndexedX mode is claimed to return
word(data.lo, data.hi) + X with a page-crossed flag comparing base and
result pages, and AbsoluteIndexedY the same with Y.  The code instead
returns the unindexed base address in both modes, and the
AbsoluteIndexedY arm even indexes with register X: at base 0x0000 with
X = 1 the X mode yields address 0x0000 rather than 0x0001; at base
0x0000 with Y = 5 the Y mode yields 0x0000 rather than 0x0005; and at
base 0x00F0 with X = 0x34 and Y = 0 the Y mode reports a page crossing
caused by X although the claimed result (base + Y) stays on the page. -/
theorem c1_absolute_indexed_returns_base :
    get_address_operand c1CpuX (0x00, 0x00) .AbsoluteIndexedX
        = some (0x0000, false)
    ∧ get_address_operand c1CpuY (0x00, 0x00) .AbsoluteIndexedY
        = some (0x0000, false)
    ∧ get_address_operand c1CpuXY (0xF0, 0x00) .AbsoluteIndexedY
        = some (0x00F0, true) := by
  refine ⟨rfl, rfl, rfl⟩

/-- A CPU at the reset state with A = 0x01 and the carry flag set. -/
def c2Cpu : CPU6502 :=
  { resetCPU with a := 0x01, flags := { resetCPU.flags with carry := true } }

/-- Claim C2: ADC is claimed to set carry to true iff
A + operand + C exceeds 0xFF.  With A = 0x01, operand = 0xFF and carry
in, the raw sum is 0x101, which exceeds 0xFF, so the claimed carry-out is
true; the code computes carry as the pre-update accumulator being greater
than the wrapped result, which compares 0x01 with 0x01 and yields false.
The accumulator itself is the claimed wrapped sum 0x01. -/
theorem c2_adc_carry_failing_input :
    (add_with_carry c2Cpu 0xFF).a = 0x01
    ∧ (add_with_carry c2Cpu 0xFF).flags.carry = false := by
  refine ⟨rfl, rfl⟩

/-- Claim C3: the decoder is claimed to match the canonical 6502 opcode
table, with every Absolute-mode instruction of width 3 and byte 0xBC
decoding to LDY with AbsoluteIndexedX.  The decoded rows below show the
Absolute-mode bytes 0xEC, 0xCC and 0xED carrying width 2, and byte 0xBC
decoding to LDX with AbsoluteIndexedY. -/
theorem c3_decode_table_failing_rows :
    decodeTable 0xEC = some (.CPX, .Absolute, 4, 2)
    ∧ decodeTable 0xCC = some (.CPY, .Absolute, 4, 2)
    ∧ decodeTable 0xED = some (.SBC, .Absolute, 4, 2)
    ∧ decodeTable 0xBC = some (.LDX, .AbsoluteIndexedY, 4, 3) := by
  refine ⟨rfl, rfl, rfl, rfl⟩

/-- Claim C4: the zero-page indexed resolver is claimed to wrap the sum
data.lo + X modulo 256 and to succeed even when the sum exceeds 255.  The
code adds with the checked (non-wrapping) u8 addition, which fails on
overflow: with data.lo = 0xFF and X = 1 the X arm fails instead of
returning 0x00, and with data.lo = 0xFE and Y = 3 the Y arm fails
instead of returning 0x01. -/
theorem c4_zero_page_indexed_overflow :
    get_address_operand c1CpuX (0xFF, 0x00) .ZeroPageIndexedX = none
    ∧ get_address_operand { resetCPU with y := 3 } (0xFE, 0x00)
        .ZeroPageIndexedY = none := by
  refine ⟨rfl, rfl⟩

/-- A CPU at the reset state with SP = 0x00. -/
def c8CpuEmpty : CPU6502 := { resetCPU with sp := 0x00 }

/-- A CPU at the reset state with SP = 0xFF. -/
def c8CpuFull : CPU6502 := { resetCPU with sp := 0xFF }

/-- Claim C8: push and pop are claimed to wrap SP modulo 256 and never
fail, including at SP = 0x00 and SP = 0xFF.  The code decrements and
increments SP with checked u8 arithmetic: a push at SP = 0x00 fails on
underflow instead of wrapping SP to 0xFF, and a pop at SP = 0xFF fails
on overflow instead of wrapping SP to 0x00. -/
theorem c8_stack_ops_fail_at_wrap :
    push_on_stack c8CpuEmpty 0xAB = none
    ∧ pop_from_stack c8CpuFull = none := by
  refine ⟨rfl, rfl⟩

end RustNes

namespace RustNes

/-- Memory holding BEQ with offset +2 at 0xFFFC. -/
def c5Mem : Mem := fun a =>
  if a = 0xFFFC then 0xF0 else if a = 0xFFFD then 0x02 else 0

/-- A CPU about to take that branch: zero flag set, PC = 0xFFFC. -/
def c5Cpu : CPU6502 :=
  { resetCPU with
    pc := 0xFFFC
    memory := c5Mem
    flags := { resetCPU.flags with zero := true } }

/-- Claim C5: a taken branch is claimed to leave PC at
(PC + 2 + signed(data.lo)) mod 65536 for every starting state.  At
PC = 0xFFFC a taken BEQ with offset +2 targets 0x10000, which is 0x0000
modulo 65536, so the claimed next PC is 0x0000 with 4 cycles charged;
the code pre-decrements the target to 0xFFFE and its checked u16
post-increment of PC by the width overflows, so the step fails instead
of wrapping. -/
theorem c5_branch_taken_wrap_target_fails :
    load_and_execute c5Cpu = none
    ∧ c5Cpu.flags.zero = true ∧ c5Cpu.memory c5Cpu.pc = 0xF0 := by
  refine ⟨?_, rfl, rfl⟩
  have h : (load_and_execute c5Cpu).isSome = false := rfl
  cases hE : load_and_execute c5Cpu with
  | none => rfl
  | some s => rw [hE] at h; simp at h

/-- The memory of the indirect-jump scenario of spec section 8: JMP
(0x02FF) at 0xC000 with the pointer low byte at the end of page 0x02. -/
def c6Mem : Mem := fun a =>
  if a = 0xC000 then 0x6C else if a = 0xC001 then 0xFF else
  if a = 0xC002 then 0x02 else if a = 0x02FF then 0x00 else
  if a = 0x0200 then 0x80 else if a = 0x0300 then 0xFF else 0

/-- The nestest reset state over that memory. -/
def c6Cpu : CPU6502 := { resetCPU with memory := c6Mem }

/-- Claim C6: indirect JMP with a pointer low byte of 0xFF is claimed to
fetch the high target byte from the start of the same page, leaving
PC = 0x8000 in the concrete scenario.  The code reads the high byte from
the sequentially next address 0x0300, so the step leaves PC = 0xFF00. -/
theorem c6_indirect_jmp_no_page_wrap :
    (load_and_execute c6Cpu).map (fun s => s.pc) = some 0xFF00 := by
  rfl

end RustNes

namespace RustNes

/-- Claim C10: decode unconditionally reads the bytes at PC+1 and PC+2
without wraparound, so with the program counter at 0xFFFE or beyond the
lookahead indexes past the 65536-byte memory and decode fails for every
opcode byte, while for PC at most 0xFFFD all three reads are in bounds
and decode succeeds exactly when the opcode byte is a supported table
row. -/
theorem c10_decode_lookahead_bounds :
    (∀ (m : Mem) (pc : Nat), 0xFFFE ≤ pc → decode m pc = none)
    ∧ (∀ (m : Mem) (pc : Nat), pc ≤ 0xFFFD →
        ((decode m pc).isSome ↔ (decodeTable (m pc)).isSome)) := by
  constructor
  · intro m pc h
    unfold decode memRead
    by_cases h0 : pc < 65536
    · have h2 : ¬ pc + 2 < 65536 := by omega
      by_cases h1 : pc + 1 < 65536 <;> simp [h0, h1, h2]
    · simp [h0]
  · intro m pc h
    rw [decode_eq_of_le m pc h]
    cases hT : decodeTable (m pc) with
    | none => simp
    | some q =>
        rcases q with ⟨op, am, cyc, w⟩
        simp

/-- Witness for claim C10: with memory filled by the NOP byte 0xEA,
decode fails at 0xFFFE, while at 0x0000 it succeeds exactly because the
NOP row exists. -/
theorem c10_decode_lookahead_bounds_witness :
    decode (fun _ => 0xEA) 0xFFFE = none
    ∧ ((decode (fun _ => 0xEA) 0x0000).isSome
        ↔ (decodeTable 0xEA).isSome) :=
  ⟨c10_decode_lookahead_bounds.1 (fun _ => 0xEA) 0xFFFE (by decide),
   c10_decode_lookahead_bounds.2 (fun _ => 0xEA) 0x0000 (by decide)⟩

set_option maxHeartbeats 2000000 in
/-- Claim C9: when the opcode at PC is one of the eight branches and its
tested flag condition is false, the step advances PC by exactly 2, adds
exactly 2 cycles, and changes nothing else: the resulting state is the
original record with only those two fields updated. -/
theorem c9_branch_not_taken_frame (s : CPU6502) (hpc : s.pc ≤ 0xFFFD)
    (hb : (s.memory s.pc = 0x90 ∧ s.flags.carry = true)
        ∨ (s.memory s.pc = 0xB0 ∧ s.flags.carry = false)
        ∨ (s.memory s.pc = 0xF0 ∧ s.flags.zero = false)
        ∨ (s.memory s.pc = 0x30 ∧ s.flags.negative = false)
        ∨ (s.memory s.pc = 0xD0 ∧ s.flags.zero = true)
        ∨ (s.memory s.pc = 0x10 ∧ s.flags.negative = true)
        ∨ (s.memory s.pc = 0x50 ∧ s.flags.overflow = true)
        ∨ (s.memory s.pc = 0x70 ∧ s.flags.overflow = false)) :
    load_and_execute s
      = some { s with pc := s.pc + 2, cycles := s.cycles + 2 } := by
  have hadd : s.pc + 2 ≤ 65535 := by omega
  have e90 : decodeTable 0x90 = some (.BCC, .Relative, 2, 2) := rfl
  have eB0 : decodeTable 0xB0 = some (.BCS, .Relative, 2, 2) := rfl
  have eF0 : decodeTable 0xF0 = some (.BEQ, .Relative, 2, 2) := rfl
  have e30 : decodeTable 0x30 = some (.BMI, .Relative, 2, 2) := rfl
  have eD0 : decodeTable 0xD0 = some (.BNE, .Relative, 2, 2) := rfl
  have e10 : decodeTable 0x10 = some (.BPL, .Relative, 2, 2) := rfl
  have e50 : decodeTable 0x50 = some (.BVC, .Relative, 2, 2) := rfl
  have e70 : decodeTable 0x70 = some (.BVS, .Relative, 2, 2) := rfl
  unfold load_and_execute
  rw [decode_eq_of_le s.memory s.pc hpc]
  rcases hb with ⟨hB, hF⟩ | ⟨hB, hF⟩ | ⟨hB, hF⟩ | ⟨hB, hF⟩
    | ⟨hB, hF⟩ | ⟨hB, hF⟩ | ⟨hB, hF⟩ | ⟨hB, hF⟩ <;>
  rw [hB] <;>
  simp [e90, eB0, eF0, e30, eD0, e10, e50, e70, execute_instruction,
    branch_on_condition, hF, checked_add_u16, hadd]

/-- Memory holding BCC with offset +4 at the reset program counter. -/
def c9Mem : Mem := fun a =>
  if a = 0xC000 then 0x90 else if a = 0xC001 then 0x04 else 0

/-- The reset state over that memory with the carry flag set, so the BCC
condition fails. -/
def c9Cpu : CPU6502 :=
  { resetCPU with
    memory := c9Mem
    flags := { resetCPU.flags with carry := true } }

/-- Witness for claim C9: the concrete not-taken BCC advances PC from
0xC000 by 2 and the cycle counter by 2, leaving the rest of the state
untouched. -/
theorem c9_branch_not_taken_frame_witness :
    load_and_execute c9Cpu
      = some { c9Cpu with pc := c9Cpu.pc + 2, cycles := c9Cpu.cycles + 2 } :=
  c9_branch_not_taken_frame c9Cpu (by decide) (Or.inl ⟨by decide, by decide⟩)

end RustNes

namespace RustNes

set_option maxHeartbeats 4000000 in
/-- Claim C7: with a JSR opcode at PC, a well-formed stack pointer, an
absolute target holding an RTS byte that the two pushes do not clobber,
the JSR step pushes PC+2 high byte at 0x0100+SP and low byte at
0x0100+SP-1, jumps to the target with SP lowered by 2, and the RTS it
reaches leaves PC at the JSR address plus 3 with SP restored. -/
theorem c7_jsr_rts_round_trip (s : CPU6502)
    (hop : s.memory s.pc = 0x20)
    (hpc : s.pc + 3 ≤ 0xFFFF)
    (hsp2 : 2 ≤ s.sp) (hsp : s.sp ≤ 255)
    (htgt3 : 3 ≤ to_address_from_bytes (s.memory (s.pc + 1), s.memory (s.pc + 2)))
    (htgt : to_address_from_bytes (s.memory (s.pc + 1), s.memory (s.pc + 2)) ≤ 0xFFFD)
    (hrts : s.memory (to_address_from_bytes (s.memory (s.pc + 1), s.memory (s.pc + 2))) = 0x60)
    (hne1 : to_address_from_bytes (s.memory (s.pc + 1), s.memory (s.pc + 2)) ≠ 0x0100 + s.sp)
    (hne2 : to_address_from_bytes (s.memory (s.pc + 1), s.memory (s.pc + 2)) ≠ 0x0100 + (s.sp - 1)) :
    (load_and_execute s).map (fun t => (t.pc, t.sp,
        t.memory (0x0100 + s.sp), t.memory (0x0100 + (s.sp - 1))))
      = some (to_address_from_bytes (s.memory (s.pc + 1), s.memory (s.pc + 2)),
          s.sp - 2, (s.pc + 2) / 256, (s.pc + 2) % 256)
    ∧ ((load_and_execute s).bind load_and_execute).map (fun t => (t.pc, t.sp))
      = some (s.pc + 3, s.sp) := by
  set T := to_address_from_bytes (s.memory (s.pc + 1), s.memory (s.pc + 2)) with hTdef
  have hT0 : s.pc ≤ 0xFFFD := by omega
  have eJSR : decodeTable 0x20 = some (.JSR, .Absolute, 6, 3) := rfl
  have eRTS : decodeTable 0x60 = some (.RTS, .Implied, 6, 1) := rfl
  have f1 : s.pc + 2 ≤ 65535 := by omega
  have f2 : 256 + s.sp < 65536 := by omega
  have f3 : 1 ≤ s.sp := by omega
  have f4 : 256 + (s.sp - 1) < 65536 := by omega
  have f5 : 1 ≤ s.sp - 1 := by omega
  have f6 : (T - 3) % 65536 = T - 3 := Nat.mod_eq_of_lt (by omega)
  have f7 : T - 3 + 3 ≤ 65535 := by omega
  have f8 : T - 3 + 3 = T := by omega
  have f9 : T ≤ 65535 := by omega
  have h1 : load_and_execute s = some
      { s with
        pc := T
        sp := s.sp - 1 - 1
        cycles := s.cycles + 6
        memory := fun j =>
          if j = 256 + (s.sp - 1) then (s.pc + 2) % 256
          else if j = 256 + s.sp then (s.pc + 2) / 256
          else s.memory j } := by
    unfold load_and_execute
    rw [decode_eq_of_le s.memory s.pc hT0, hop]
    simp [eJSR, execute_instruction, push_on_stack, memWrite,
      checked_add_u16, checked_sub, get_address_operand, as_u16,
      to_bytes_from_address, ← hTdef, f1, f2, f3, f4, f5, f6, f7, f8, f9,
      htgt3]
  have g0 : s.sp - 1 - 1 = s.sp - 2 := by omega
  have g1 : ¬ (256 + s.sp = 256 + (s.sp - 1)) := by omega
  have g1a : ¬ (s.sp = s.sp - 1) := by omega
  have g2 : s.sp - 1 - 1 + 1 = s.sp - 1 := by omega
  have g3 : s.sp - 1 ≤ 255 := by omega
  have g5 : s.sp - 1 + 1 = s.sp := by omega
  have g7 : ((s.pc + 2) / 256) <<< 8 + (s.pc + 2) % 256 = s.pc + 2 := by
    rw [Nat.shiftLeft_eq, show (2 : Nat) ^ 8 = 256 from rfl]
    omega
  have g8 : (s.pc + 2) % 65536 = s.pc + 2 := Nat.mod_eq_of_lt (by omega)
  have g9 : s.pc + 2 + 1 ≤ 65535 := by omega
  have g9a : s.pc + 2 ≤ 65534 := by omega
  have g10 : s.pc + 2 + 1 = s.pc + 3 := by omega
  have h2 : (load_and_execute
      { s with
        pc := T
        sp := s.sp - 1 - 1
        cycles := s.cycles + 6
        memory := fun j =>
          if j = 256 + (s.sp - 1) then (s.pc + 2) % 256
          else if j = 256 + s.sp then (s.pc + 2) / 256
          else s.memory j }).map (fun t => (t.pc, t.sp))
      = some (s.pc + 3, s.sp) := by
    unfold load_and_execute
    rw [decode_eq_of_le _ _ htgt]
    simp [hne1, hne2, hrts, eRTS, execute_instruction, pop_from_stack,
      checked_add_u8, checked_add_u16, memRead, as_u16,
      to_address_from_bytes, g1, g1a, g2, g3, g5, g7, g8, g9, g9a, g10,
      f2, f4, hsp]
  constructor
  · rw [h1]
    simp [g0, g1]
  · rw [h1]
    simpa using h2

end RustNes

namespace RustNes

/-- Memory of spec section 8 scenario 5: JSR 0x1234 at 0xC000 and an RTS
at 0x1234. -/
def c7Mem : Mem := fun a =>
  if a = 0xC000 then 0x20 else if a = 0xC001 then 0x34 else
  if a = 0xC002 then 0x12 else if a = 0x1234 then 0x60 else 0

/-- The reset state over that memory. -/
def c7Cpu : CPU6502 := { resetCPU with memory := c7Mem }

/-- Witness for claim C7: the concrete JSR 0x1234 followed by its RTS
pushes 0xC0 then 0x02 at 0x01FD and 0x01FC, visits PC = 0x1234 with
SP = 0xFB, and returns to PC = 0xC003 with SP = 0xFD. -/
theorem c7_jsr_rts_round_trip_witness :
    (load_and_execute c7Cpu).map (fun t => (t.pc, t.sp,
        t.memory (0x0100 + c7Cpu.sp), t.memory (0x0100 + (c7Cpu.sp - 1))))
      = some (0x1234, 0xFB, 0xC0, 0x02)
    ∧ ((load_and_execute c7Cpu).bind load_and_execute).map
        (fun t => (t.pc, t.sp))
      = some (0xC003, 0xFD) :=
  c7_jsr_rts_round_trip c7Cpu (by decide) (by decide) (by decide)
    (by decide) (by decide) (by decide) (by decide) (by decide) (by decide)

end RustNes
